import Mathlib

/-!
Verification of the E2E-Job-Search-Agent frontend against its
natural-language specification.

The development shallowly embeds the relevant TypeScript source:
  * `src/frontend/src/lib/database/client.ts` (the Persistence Gateway:
    client-side CRUD wrappers over the hosted store),
  * `src/frontend/src/app/api/[...path]/route.ts` (the Agent Bridge:
    identity injection into forwarded chat request bodies),
  * the onboarding wizard (`OnboardingFlow`, `PersonalInfoStep`,
    `ResumeUploadStep`, `SkillsStep`): a four-step client-side flow.

The hosted store is modelled as an explicit record of row lists; the
ambient session is an `Option String` identity; store-level failures are
injected through an explicit `StoreEnv` of per-operation error switches,
mirroring which failures the source checks and which it silently ignores.
Every function is a direct transcription of the corresponding source
function, with asynchronous effects turned into explicit state passing.
-/

namespace JobSearch

/-! ### Store rows (tables `profiles`, `user_skills`, `resumes`) -/

/-- Row of the `profiles` table (fields touched by this code base). -/
structure ProfileRow where
  id : String
  email : String
  full_name : Option String
  phone_number : Option String
  linkedin_url : Option String
  onboarding_completed : Bool
  updated_at : Nat
deriving Repr, DecidableEq

/-- Row of the `user_skills` table. -/
structure UserSkillRow where
  user_id : String
  skill_id : String
  proficiency_level : String
deriving Repr, DecidableEq

/-- Row of the `resumes` table (fields touched by this code base). -/
structure ResumeRow where
  id : String
  user_id : String
  file_url : String
  file_name : String
  is_master : Bool
deriving Repr, DecidableEq

/-- The hosted relational store, restricted to the three tables the
onboarding flow mutates. -/
structure Store where
  profiles : List ProfileRow
  user_skills : List UserSkillRow
  resumes : List ResumeRow
deriving Repr, DecidableEq

/-- One logical store operation issued by a Persistence Gateway call
(used to state "performs no store read, write, or delete"). -/
inductive StoreOp
  | selectOp
  | updateOp
  | insertOp
  | deleteOp
deriving Repr, DecidableEq

/-- Result of one client-side database function: the thrown/returned
value, the store after the call, and the store operations attempted. -/
structure DbResult (α : Type) where
  result : Except String α
  store : Store
  ops : List StoreOp
deriving Repr

/-- Per-operation store failure switches: `some msg` makes the matching
store statement fail with message `msg`, `none` lets it succeed.  This
models the `error` fields of the supabase responses; the source checks
some of them and silently ignores others (the skills delete and the
resume master unset). -/
structure StoreEnv where
  profileUpdateError : Option String
  skillsDeleteError : Option String
  skillsInsertError : Option String
  resumeInsertError : Option String
  resumeUnsetError : Option String
  resumeSetError : Option String
  storageUploadError : Option String
deriving Repr, DecidableEq

/-- The all-operations-succeed environment. -/
def okEnv : StoreEnv :=
  ⟨none, none, none, none, none, none, none⟩

/-! ### Persistence Gateway (`lib/database/client.ts`) -/

/-- Argument of `updateProfileClient`: the optional fields of the
`updates` object (absent field = key not present in the JS object). -/
structure ProfileUpdates where
  full_name : Option String
  phone_number : Option String
  linkedin_url : Option String
  onboarding_completed : Option Bool
deriving Repr, DecidableEq

/-- Effect of `.update({ ...updates, updated_at: new Date().toISOString() })`
on one row: provided keys overwrite, absent keys keep the old value, and
`updated_at` is always refreshed (`now` models the timestamp). -/
def applyProfileUpdates (u : ProfileUpdates) (now : Nat) (r : ProfileRow) : ProfileRow :=
  { id := r.id
    email := r.email
    full_name := (u.full_name.map some).getD r.full_name
    phone_number := (u.phone_number.map some).getD r.phone_number
    linkedin_url := (u.linkedin_url.map some).getD r.linkedin_url
    onboarding_completed := u.onboarding_completed.getD r.onboarding_completed
    updated_at := now }

/-- `updateProfileClient` from `client.ts`: auth check, then a single
update on `profiles` filtered by the session id, with `.select().single()`
demanding exactly one returned row. -/
def updateProfileClient (env : StoreEnv) (session : Option String) (now : Nat)
    (updates : ProfileUpdates) (st : Store) : DbResult ProfileRow :=
  match session with
  | none => ⟨.error "User not authenticated", st, []⟩
  | some uid =>
    match env.profileUpdateError with
    | some m => ⟨.error ("Failed to update profile: " ++ m), st, [.updateOp]⟩
    | none =>
      let newProfiles := st.profiles.map fun r =>
        if r.id = uid then applyProfileUpdates updates now r else r
      match newProfiles.filter (fun r => decide (r.id = uid)) with
      | [row] => ⟨.ok row, { st with profiles := newProfiles }, [.updateOp]⟩
      | _ => ⟨.error "Failed to update profile: zero or several rows returned", st, [.updateOp]⟩

/-- Element of the `skills` argument of `updateUserSkillsClient`. -/
structure SkillSel where
  skill_id : String
  proficiency_level : String
deriving Repr, DecidableEq

/-- The `skills.map(skill => ({ ...skill, user_id: user.id }))` step. -/
def tagSkill (uid : String) (s : SkillSel) : UserSkillRow :=
  ⟨uid, s.skill_id, s.proficiency_level⟩

/-- `updateUserSkillsClient` from `client.ts`: auth check, then delete all
of the user's `user_skills` rows (the source never inspects the delete's
error), then, when the new list is non-empty, insert the tagged rows,
throwing on an insert error. -/
def updateUserSkillsClient (env : StoreEnv) (session : Option String)
    (skills : List SkillSel) (st : Store) : DbResult (List UserSkillRow) :=
  match session with
  | none => ⟨.error "User not authenticated", st, []⟩
  | some uid =>
    let st1 :=
      if env.skillsDeleteError.isSome then st
      else { st with user_skills := st.user_skills.filter (fun r => !decide (r.user_id = uid)) }
    if skills.isEmpty then
      ⟨.ok [], st1, [.deleteOp]⟩
    else
      let rows := skills.map (tagSkill uid)
      match env.skillsInsertError with
      | some m => ⟨.error ("Failed to update user skills: " ++ m), st1, [.deleteOp, .insertOp]⟩
      | none => ⟨.ok rows, { st1 with user_skills := st1.user_skills ++ rows }, [.deleteOp, .insertOp]⟩

/-- Argument of `createResumeClient` (absent `is_master` key is modelled
as `none`; the column then takes the store default `false`). -/
structure ResumeData where
  file_url : String
  file_name : String
  is_master : Option Bool
deriving Repr, DecidableEq

/-- `createResumeClient` from `client.ts`: auth check, then a single
insert into `resumes` with the session id as `user_id` (`newId` models
the store-generated primary key). -/
def createResumeClient (env : StoreEnv) (session : Option String)
    (rd : ResumeData) (newId : String) (st : Store) : DbResult ResumeRow :=
  match session with
  | none => ⟨.error "User not authenticated", st, []⟩
  | some uid =>
    match env.resumeInsertError with
    | some m => ⟨.error ("Failed to create resume: " ++ m), st, [.insertOp]⟩
    | none =>
      let row : ResumeRow := ⟨newId, uid, rd.file_url, rd.file_name, rd.is_master.getD false⟩
      ⟨.ok row, { st with resumes := st.resumes ++ [row] }, [.insertOp]⟩

/-- `setMasterResumeClient` from `client.ts`: auth check; unset
`is_master` on all of the user's resumes (error never inspected by the
source); then set `is_master = true` on the row matching both the resume
id and the user id, with `.select().single()`. -/
def setMasterResumeClient (env : StoreEnv) (session : Option String)
    (resumeId : String) (st : Store) : DbResult ResumeRow :=
  match session with
  | none => ⟨.error "User not authenticated", st, []⟩
  | some uid =>
    let st1 :=
      if env.resumeUnsetError.isSome then st
      else { st with resumes := st.resumes.map fun r =>
               if r.user_id = uid then { r with is_master := false } else r }
    match env.resumeSetError with
    | some m => ⟨.error ("Failed to set master resume: " ++ m), st1, [.updateOp, .updateOp]⟩
    | none =>
      let newResumes := st1.resumes.map fun r =>
        if r.id = resumeId ∧ r.user_id = uid then { r with is_master := true } else r
      match newResumes.filter (fun r => decide (r.id = resumeId ∧ r.user_id = uid)) with
      | [row] => ⟨.ok row, { st1 with resumes := newResumes }, [.updateOp, .updateOp]⟩
      | _ => ⟨.error "Failed to set master resume: zero or several rows returned", st1,
              [.updateOp, .updateOp]⟩

/-! ### Agent Bridge (`app/api/[...path]/route.ts`) -/

/-- The parsed `config.configurable` object of a forwarded chat body:
its `user_id` key (absent = `none`) plus the remaining keys, carried
opaquely. -/
structure Configurable where
  user_id : Option String
  extra : List (String × String)
deriving Repr, DecidableEq

/-- The parsed `config` object: its `configurable` key plus remaining
keys, carried opaquely. -/
structure AgentConfig where
  configurable : Option Configurable
  extra : List (String × String)
deriving Repr, DecidableEq

/-- A parsed JSON request body as the bridge sees it: the `messages`
array (opaque payload), the optional `config` object, and any remaining
top-level keys, carried opaquely and preserved by re-serialization. -/
structure AgentBody where
  messages : List String
  config : Option AgentConfig
  extra : List (String × String)
deriving Repr, DecidableEq

/-- HTTP methods handled by the passthrough route. -/
inductive HttpMethod
  | get
  | post
  | put
  | patch
  | del
  | options
deriving Repr, DecidableEq

/-- Methods whose requests carry a body, per the source's
`req.method !== "POST" && req.method !== "PATCH" && req.method !== "PUT"`
guard. -/
def bodyMethod : HttpMethod → Bool
  | .post => true
  | .patch => true
  | .put => true
  | _ => false

/-- JavaScript truthiness of an optional string value
(`!body.config.configurable.user_id`): absent and empty are falsy. -/
def strTruthy : Option String → Bool
  | none => false
  | some s => !s.isEmpty

/-- The flattened `body.config?.configurable?.user_id` access. -/
def bodyUserId (b : AgentBody) : Option String :=
  (b.config.bind AgentConfig.configurable).bind Configurable.user_id

/-- `injectUserConfig` from `route.ts`: for body-carrying methods with a
resolvable session identity and a parseable JSON body, materialize
`config` and `config.configurable` when absent and set
`config.configurable.user_id` to the identity only when the existing
value is falsy; otherwise (wrong method, no identity, unparseable body,
or any internal failure, all of which the source maps to `null`) report
nothing to forward in modified form. -/
def injectUserConfig (method : HttpMethod) (session : Option String)
    (parsedBody : Option AgentBody) : Option (AgentBody × String) :=
  if !bodyMethod method then none
  else
    match session with
    | none => none
    | some uid =>
      match parsedBody with
      | none => none
      | some body =>
        let cfg := body.config.getD ⟨none, []⟩
        let cbl := cfg.configurable.getD ⟨none, []⟩
        let cbl' := if strTruthy cbl.user_id then cbl else { cbl with user_id := some uid }
        some ({ body with config := some { cfg with configurable := some cbl' } }, uid)

/-- The `POST` handler of `route.ts`, projected to the JSON body that
leaves the bridge: the modified body when `injectUserConfig` produced
one, the original request body otherwise (`none` models a body the
bridge could not parse, forwarded verbatim). -/
def forwardedPOSTBody (session : Option String) (parsedBody : Option AgentBody) :
    Option AgentBody :=
  match injectUserConfig .post session parsedBody with
  | some mb => some mb.1
  | none => parsedBody

/-- The defaulted `config` object the source works on
(`body.config = body.config || {}`). -/
def cfgOf (b : AgentBody) : AgentConfig :=
  b.config.getD ⟨none, []⟩

/-- The defaulted `config.configurable` object the source works on. -/
def cblOf (b : AgentBody) : Configurable :=
  (cfgOf b).configurable.getD ⟨none, []⟩

/-- The body produced by the injection when the incoming `user_id` was
falsy: missing `config` layers materialized, `user_id` set to `uid`, all
other content preserved. -/
def injectedBody (uid : String) (b : AgentBody) : AgentBody :=
  { b with
    config := some (AgentConfig.mk (some (Configurable.mk (some uid) (cblOf b).extra)) (cfgOf b).extra) }

/-! ### Onboarding controller (`OnboardingFlow`) -/

/-- The validated Step 1 fragment (`PersonalInfoStep` form data). -/
structure PersonalInfo where
  full_name : String
  phone_number : String
  linkedin_url : String
deriving Repr, DecidableEq

/-- The controller's accumulated `onboardingData`. -/
structure OnboardingData where
  personalInfo : Option PersonalInfo
  skills : Option (List SkillSel)
deriving Repr, DecidableEq

/-- The controller's own state: `currentStep`, `onboardingData`,
`loading`, `error`. -/
structure FlowState where
  currentStep : Nat
  data : OnboardingData
  loading : Bool
  error : String
deriving Repr, DecidableEq

/-- Result of running one controller handler to completion: the final
controller state, the store after the handler, and the number of
Persistence Gateway calls the handler issued. -/
structure FlowStepResult where
  flow : FlowState
  store : Store
  gatewayCalls : Nat
deriving Repr, DecidableEq

/-- The `updates` object `handlePersonalInfoNext` passes to
`updateProfileClient`. -/
def personalInfoUpdates (d : PersonalInfo) : ProfileUpdates :=
  ⟨some d.full_name, some d.phone_number, some d.linkedin_url, none⟩

/-- `OnboardingFlow.handlePersonalInfoNext`: set loading, clear the error,
await `updateProfileClient`; on success store the fragment and move to
step 2, on failure surface a message; the `finally` clause clears the
loading flag on both paths.  The handler contains no check of the
`loading` flag before issuing the call. -/
def handlePersonalInfoNext (env : StoreEnv) (session : Option String) (now : Nat)
    (st : FlowState) (d : PersonalInfo) (store : Store) : FlowStepResult :=
  let r := updateProfileClient env session now (personalInfoUpdates d) store
  match r.result with
  | .ok _ =>
    ⟨⟨2, { st.data with personalInfo := some d }, false, ""⟩, r.store, 1⟩
  | .error _ =>
    ⟨{ st with
        loading := false
        error := "Failed to save personal information. Please try again." }, r.store, 1⟩

/-- `OnboardingFlow.handleResumeUploadNext`: `setCurrentStep(3)` and
nothing else — no Persistence Gateway call, store untouched. -/
def handleResumeUploadNext (st : FlowState) (store : Store) : FlowStepResult :=
  ⟨{ st with currentStep := 3 }, store, 0⟩

/-- `OnboardingFlow.handleSkillsNext`: set loading, clear the error, await
`updateUserSkillsClient`; on success store the fragment and move to step
4, on failure surface a message; `finally` clears the loading flag.  The
handler contains no check of the `loading` flag before issuing the
call. -/
def handleSkillsNext (env : StoreEnv) (session : Option String)
    (st : FlowState) (skills : List SkillSel) (store : Store) : FlowStepResult :=
  let r := updateUserSkillsClient env session skills store
  match r.result with
  | .ok _ =>
    ⟨⟨4, { st.data with skills := some skills }, false, ""⟩, r.store, 1⟩
  | .error _ =>
    ⟨{ st with
        loading := false
        error := "Failed to save skills. Please try again." }, r.store, 1⟩

/-- `OnboardingFlow.handleComplete`: persist `onboarding_completed = true`
and, on success, navigate away (the returned flag). -/
def handleComplete (env : StoreEnv) (session : Option String) (now : Nat)
    (st : FlowState) (store : Store) : FlowStepResult × Bool :=
  let r := updateProfileClient env session now ⟨none, none, none, some true⟩ store
  match r.result with
  | .ok _ => (⟨{ st with loading := false, error := "" }, r.store, 1⟩, true)
  | .error _ =>
    (⟨{ st with
        loading := false
        error := "Failed to complete onboarding. Please try again." }, r.store, 1⟩, false)

/-- `OnboardingFlow.handleBack`: decrement the step when above 1; no
persistence, `onboardingData` untouched. -/
def handleBack (st : FlowState) : FlowState :=
  if st.currentStep > 1 then { st with currentStep := st.currentStep - 1 } else st

/-! ### Step 1 view (`PersonalInfoStep`) -/

/-- The whitespace class used by JavaScript string trimming and by the
`\\s` class of the phone regex (restricted to the ASCII part, the only
part this application exercises). -/
def jsWhitespace (c : Char) : Bool :=
  decide (c = ' ') || decide (c = '\t') || decide (c = '\n') || decide (c = '\r')
    || decide (c = '\x0b') || decide (c = '\x0c')

/-- Whether `s.trim()` is empty, i.e. `s` is all whitespace. -/
def jsTrimEmpty (s : String) : Bool :=
  (s.data.dropWhile jsWhitespace).isEmpty

/-- The character class `[\\d\\s\\-\\(\\)]` of the phone regex. -/
def phoneChar (c : Char) : Bool :=
  c.isDigit || jsWhitespace c || decide (c = '-') || decide (c = '(') || decide (c = ')')

/-- The test of the anchored regex `^\\+?[\\d\\s\\-\\(\\)]+$`: an optional
leading plus sign, then one or more phone characters. -/
def phonePatternTest (s : String) : Bool :=
  match s.data with
  | [] => false
  | '+' :: rest => !rest.isEmpty && rest.all phoneChar
  | l => l.all phoneChar

/-- Substring containment (`String.prototype.includes`). -/
def containsSub (pat s : String) : Bool :=
  s.data.tails.any (fun t => pat.data.isPrefixOf t)

/-- `PersonalInfoStep.validateForm`: the `newErrors` record it builds.
Full name must be non-blank; the phone number must be non-blank and match
the phone pattern; a non-empty LinkedIn URL must contain
`"linkedin.com"`. -/
def validatePersonalForm (f : PersonalInfo) : List (String × String) :=
  (if jsTrimEmpty f.full_name then [("full_name", "Full name is required")] else [])
    ++ (if jsTrimEmpty f.phone_number then [("phone_number", "Phone number is required")]
        else if !phonePatternTest f.phone_number then
          [("phone_number", "Please enter a valid phone number")]
        else [])
    ++ (if !f.linkedin_url.isEmpty && !containsSub "linkedin.com" f.linkedin_url then
          [("linkedin_url", "Please enter a valid LinkedIn URL")]
        else [])

/-- `validateForm`'s return value: no error recorded. -/
def personalFormValid (f : PersonalInfo) : Bool :=
  (validatePersonalForm f).isEmpty

/-- `PersonalInfoStep.handleSubmit`: call the upward `onNext` with the
form data exactly when validation passes (`none` = rejected locally,
`onNext` never invoked). -/
def handleSubmitPersonal (f : PersonalInfo) : Option PersonalInfo :=
  if personalFormValid f then some f else none

/-- A Step 1 submission as seen end to end: the view's `handleSubmit`
composed with the controller's `handlePersonalInfoNext` (only reached
when the view invoked `onNext`). -/
def step1Submit (env : StoreEnv) (session : Option String) (now : Nat)
    (st : FlowState) (f : PersonalInfo) (store : Store) : FlowStepResult :=
  match handleSubmitPersonal f with
  | some d => handlePersonalInfoNext env session now st d store
  | none => ⟨st, store, 0⟩

/-! ### Step 2 view (`ResumeUploadStep`) -/

/-- Local state of `ResumeUploadStep`: selected file names, `loading`,
`error`, `uploadSuccess`. -/
structure ResumeViewState where
  files : List String
  loading : Bool
  error : String
  uploadSuccess : Bool
deriving Repr, DecidableEq

/-- The public URL the storage service reports for an uploaded object at
path `uid/fileName` (`getPublicUrl`). -/
def publicResumeUrl (uid fileName : String) : String :=
  "https://storage.example/resumes/" ++ uid ++ "/" ++ fileName

/-- `ResumeUploadStep.handleUpload`: reject when no file is selected;
require an authenticated user; upload the binary to the `resumes` bucket
under `uid/fileName`; then `createResumeClient` with `is_master: true`
unconditionally.  Success sets `uploadSuccess`; every failure surfaces a
message; the loading flag ends cleared. -/
def handleUpload (env : StoreEnv) (session : Option String) (newId : String)
    (vs : ResumeViewState) (st : Store) : ResumeViewState × Store :=
  match vs.files with
  | [] => ({ vs with error := "Please select a resume file to upload." }, st)
  | fileName :: _ =>
    match session with
    | none =>
      ({ vs with
          loading := false
          error := "You must be logged in to upload a resume." }, st)
    | some uid =>
      match env.storageUploadError with
      | some m =>
        ({ vs with
            loading := false
            error := "Failed to upload resume: " ++ m }, st)
      | none =>
        let r := createResumeClient env session
          ⟨publicResumeUrl uid fileName, fileName, some true⟩ newId st
        match r.result with
        | .ok _ =>
          ({ vs with
              loading := false
              error := ""
              uploadSuccess := true }, r.store)
        | .error m =>
          ({ vs with
              loading := false
              error := "Failed to upload resume: " ++ m }, r.store)

/-- What a forward-signalling button of the Step 2 view does: invoke the
upward `onNext`, or stay on the step with a local error. -/
inductive ResumeNextAction
  | advance
  | stay (err : String)
deriving Repr, DecidableEq

/-- `ResumeUploadStep.handleNext` (the Continue button): `onNext` only
when `uploadSuccess` is set, otherwise a local error. -/
def resumeHandleNext (vs : ResumeViewState) : ResumeNextAction :=
  if vs.uploadSuccess then .advance else .stay "Please upload a resume before continuing."

/-- `ResumeUploadStep.handleSkip` (the Skip button): always `onNext`. -/
def resumeHandleSkip (_vs : ResumeViewState) : ResumeNextAction :=
  .advance

/-- Outcome of pressing Continue on Step 2: the controller transition it
causes (via `handleResumeUploadNext`) and the resulting view state. -/
def resumeStepNextOutcome (vs : ResumeViewState) (st : FlowState) (store : Store) :
    FlowStepResult × ResumeViewState :=
  match resumeHandleNext vs with
  | .advance => (handleResumeUploadNext st store, vs)
  | .stay e => (⟨st, store, 0⟩, { vs with error := e })

/-- Outcome of pressing Skip on Step 2. -/
def resumeStepSkipOutcome (vs : ResumeViewState) (st : FlowState) (store : Store) :
    FlowStepResult × ResumeViewState :=
  match resumeHandleSkip vs with
  | .advance => (handleResumeUploadNext st store, vs)
  | .stay e => (⟨st, store, 0⟩, { vs with error := e })

/-! ### Step 3 view (`SkillsStep`) -/

/-- JavaScript-object record operations on `selectedSkills`
(`Record<string, string>`, modelled as an association list with unique
keys, insertion at the end). -/
def recordHas (m : List (String × String)) (k : String) : Bool :=
  m.any (fun p => decide (p.1 = k))

/-- Key removal (`delete newSelected[skillId]`). -/
def recordDel (m : List (String × String)) (k : String) : List (String × String) :=
  m.filter (fun p => !decide (p.1 = k))

/-- Key insertion (`newSelected[skillId] = v`). -/
def recordSet (m : List (String × String)) (k v : String) : List (String × String) :=
  recordDel m k ++ [(k, v)]

/-- `SkillsStep.toggleSkill`: deselect a selected skill, otherwise select
it with the default proficiency. -/
def toggleSkill (selected : List (String × String)) (skillId : String) :
    List (String × String) :=
  if recordHas selected skillId then recordDel selected skillId
  else recordSet selected skillId "intermediate"

/-- The `initialSkills` effect of `SkillsStep` on a fresh mount: the
`selectedSkills` record starts empty and is populated from the
`initialSkills` prop only when that prop is a non-empty list. -/
def initSelectedSkills (initialSkills : Option (List SkillSel)) : List (String × String) :=
  match initialSkills with
  | some l => if l.isEmpty then [] else l.map fun s => (s.skill_id, s.proficiency_level)
  | none => []

/-! ### Mounted step views (`OnboardingFlow.renderStep`) -/

/-- The local state of the step view currently mounted by `renderStep`. -/
inductive MountedStep
  | personalV (form : PersonalInfo)
  | resumeV (vs : ResumeViewState)
  | skillsV (selected : List (String × String))
  | completionV
deriving Repr, DecidableEq

/-- Mounting the view for a step: each case reflects the component's
`useState` initializers and mount-time effects; `renderStep` returns
`null` outside 1..4. -/
def mountStep (step : Nat) (data : OnboardingData) : Option MountedStep :=
  match step with
  | 1 => some (.personalV ⟨(data.personalInfo.map PersonalInfo.full_name).getD "",
      (data.personalInfo.map PersonalInfo.phone_number).getD "",
      (data.personalInfo.map PersonalInfo.linkedin_url).getD ""⟩)
  | 2 => some (.resumeV ⟨[], false, "", false⟩)
  | 3 => some (.skillsV (initSelectedSkills data.skills))
  | 4 => some .completionV
  | _ => none

/-- Controller state plus the mounted view: the full client-side state
relevant to back/forward navigation. -/
structure UiState where
  flow : FlowState
  view : Option MountedStep
deriving Repr, DecidableEq

/-- Toggling a skill in the mounted Skills view (pure local state). -/
def uiToggleSkill (u : UiState) (skillId : String) : UiState :=
  match u.view with
  | some (.skillsV sel) => { u with view := some (.skillsV (toggleSkill sel skillId)) }
  | _ => u

/-- Pressing Back: `handleBack` moves the index; React then unmounts the
current step view and mounts the one for the new index, so the new view
starts from its own initializers and the props derived from
`onboardingData`.  No Persistence Gateway call is made. -/
def uiBack (u : UiState) (store : Store) : UiState × Store × Nat :=
  let fl := handleBack u.flow
  (⟨fl, mountStep fl.currentStep fl.data⟩, store, 0)

/-- Pressing Skip on the mounted Step 2 view: `handleSkip` calls `onNext`,
the controller runs `handleResumeUploadNext`, and the Step 3 view is
mounted for the new index. -/
def uiResumeSkip (u : UiState) (store : Store) : UiState × Store × Nat :=
  match u.view with
  | some (.resumeV vs) =>
    match resumeHandleSkip vs with
    | .advance =>
      let r := handleResumeUploadNext u.flow store
      (⟨r.flow, mountStep r.flow.currentStep r.flow.data⟩, r.store, r.gatewayCalls)
    | .stay e => (⟨u.flow, some (.resumeV { vs with error := e })⟩, store, 0)
  | _ => (u, store, 0)

/-! ### Derived observations used by the theorems -/

/-- The user's rows of the `user_skills` table. -/
def skillsFor (uid : String) (st : Store) : List UserSkillRow :=
  st.user_skills.filter (fun r => decide (r.user_id = uid))

/-- The other users' rows of the `user_skills` table. -/
def skillsForOthers (uid : String) (st : Store) : List UserSkillRow :=
  st.user_skills.filter (fun r => !decide (r.user_id = uid))

/-- How many of the user's resumes carry `is_master = true`. -/
def masterCount (uid : String) (st : Store) : Nat :=
  (st.resumes.filter (fun r => decide (r.user_id = uid) && r.is_master)).length

/-- The `selectedSkills` record of the mounted Skills view, when Step 3
is the mounted view. -/
def selectedOf (u : UiState) : Option (List (String × String)) :=
  match u.view with
  | some (.skillsV sel) => some sel
  | _ => none

/-! ## Theorems -/

/-- When the incoming `config.configurable.user_id` is truthy, the bridge
rebuilds the body without changing anything: the forwarded body is the
incoming one. -/
lemma forwardedPOST_truthy (uid : String) (b : AgentBody)
    (h : strTruthy (bodyUserId b) = true) :
    forwardedPOSTBody (some uid) (some b) = some b := by
  obtain ⟨ms, cfgO, ex⟩ := b
  cases cfgO with
  | none => simp [bodyUserId, strTruthy] at h
  | some cfg =>
    obtain ⟨cblO, exc⟩ := cfg
    cases cblO with
    | none => simp [bodyUserId, strTruthy] at h
    | some cbl =>
      simp only [bodyUserId, Option.some_bind] at h
      simp [forwardedPOSTBody, injectUserConfig, bodyMethod, h]

/-- When the incoming `config.configurable.user_id` is falsy (absent or
empty), the forwarded body is the incoming one with the missing `config`
layers materialized and `user_id` set to the session identity. -/
lemma forwardedPOST_falsy (uid : String) (b : AgentBody)
    (h : strTruthy (bodyUserId b) = false) :
    forwardedPOSTBody (some uid) (some b) = some (injectedBody uid b) := by
  obtain ⟨ms, cfgO, ex⟩ := b
  cases cfgO with
  | none => simp [forwardedPOSTBody, injectUserConfig, bodyMethod, strTruthy, injectedBody, cfgOf, cblOf]
  | some cfg =>
    obtain ⟨cblO, exc⟩ := cfg
    cases cblO with
    | none => simp [forwardedPOSTBody, injectUserConfig, bodyMethod, strTruthy, injectedBody, cfgOf, cblOf]
    | some cbl =>
      simp only [bodyUserId, Option.some_bind] at h
      simp [forwardedPOSTBody, injectUserConfig, bodyMethod, h, injectedBody, cfgOf, cblOf]

/-! ### Claim C1 -/

/-- Claim C1: with no resolvable session identity, each client-side
mutation of the Persistence Gateway (`updateProfileClient`,
`updateUserSkillsClient`, `createResumeClient`, `setMasterResumeClient`)
throws the `User not authenticated` error, leaves the store untouched,
and attempts no store read, write, or delete. -/
theorem unauthenticated_mutations_short_circuit
    (env : StoreEnv) (now : Nat) (updates : ProfileUpdates)
    (skills : List SkillSel) (rd : ResumeData) (newId resumeId : String) (st : Store) :
    updateProfileClient env none now updates st
        = ⟨.error "User not authenticated", st, []⟩
      ∧ updateUserSkillsClient env none skills st
        = ⟨.error "User not authenticated", st, []⟩
      ∧ createResumeClient env none rd newId st
        = ⟨.error "User not authenticated", st, []⟩
      ∧ setMasterResumeClient env none resumeId st
        = ⟨.error "User not authenticated", st, []⟩ :=
  ⟨rfl, rfl, rfl, rfl⟩

/-! ### Claim C2 -/

/-- Claim C2 counterexample: with resolved identity `"u-42"` and an
incoming body whose `config.configurable.user_id` is already `"other"`,
the body leaving the bridge carries `user_id = "other"`, which is not the
resolved caller's identity. -/
theorem bridge_identity_contract_counterexample :
    (forwardedPOSTBody (some "u-42")
        (some ⟨["hello"], some ⟨some ⟨some "other", []⟩, []⟩, []⟩)).bind bodyUserId
      = some "other"
    ∧ (some "other" : Option String) ≠ some "u-42" := by
  refine ⟨rfl, ?_⟩
  decide

/-- Claim C2 (amended): for a POST request with resolved identity `uid`
and a parseable body, the outgoing body's `config.configurable.user_id`
equals `uid` when the incoming value is falsy (absent or empty), with the
`messages` payload preserved; when the incoming value is truthy, the body
is forwarded completely unmodified (so `user_id` may differ from the
caller's identity); and with no resolvable identity the request is
forwarded unmodified. -/
theorem bridge_identity_contract_amended (uid : String) (b : AgentBody) :
    (strTruthy (bodyUserId b) = false →
      (forwardedPOSTBody (some uid) (some b)).bind bodyUserId = some uid
        ∧ (forwardedPOSTBody (some uid) (some b)).map AgentBody.messages = some b.messages)
    ∧ (strTruthy (bodyUserId b) = true →
        forwardedPOSTBody (some uid) (some b) = some b)
    ∧ (∀ ob : Option AgentBody, forwardedPOSTBody none ob = ob) := by
  refine ⟨fun h => ?_, fun h => forwardedPOST_truthy uid b h, fun ob => ?_⟩
  · rw [forwardedPOST_falsy uid b h]
    simp [bodyUserId, injectedBody]
  · cases ob <;> rfl

/-- Claim C2 amended witness at a concrete input. -/
theorem bridge_identity_contract_amended_witness :
    strTruthy (bodyUserId ⟨["m3"], none, []⟩) = false
      ∧ (forwardedPOSTBody (some "u-7") (some ⟨["m3"], none, []⟩)).bind bodyUserId
        = some "u-7" :=
  ⟨rfl, ((bridge_identity_contract_amended "u-7" ⟨["m3"], none, []⟩).1 rfl).1⟩

/-! ### Claim C3 -/

/-- Claim C3: a POST body `{"messages":[...]}` with no config and
resolved identity `"u-42"` is forwarded as
`{"messages":[...], "config":{"configurable":{"user_id":"u-42"}}}`; and
a body already carrying a (non-empty) `config.configurable.user_id` is
forwarded with that field, and the whole body, unmodified. -/
theorem bridge_injection_examples :
    (∀ ms : List String,
      forwardedPOSTBody (some "u-42") (some ⟨ms, none, []⟩)
        = some ⟨ms, some ⟨some ⟨some "u-42", []⟩, []⟩, []⟩)
    ∧ (∀ (ident : String) (b : AgentBody) (v : String),
        bodyUserId b = some v → v ≠ "" →
        forwardedPOSTBody (some ident) (some b) = some b) := by
  constructor
  · intro ms
    rfl
  · intro ident b v hv hne
    apply forwardedPOST_truthy
    have hv' : v.isEmpty = false := by
      cases hval : v.isEmpty with
      | false => rfl
      | true => exact absurd ((String.isEmpty_iff v).mp hval) hne
    simp [strTruthy, hv, hv']

/-- Claim C3 witness at the spec's concrete inputs. -/
theorem bridge_injection_examples_witness :
    forwardedPOSTBody (some "u-42") (some ⟨["m1"], none, []⟩)
        = some ⟨["m1"], some ⟨some ⟨some "u-42", []⟩, []⟩, []⟩
      ∧ forwardedPOSTBody (some "u-42")
          (some ⟨["m2"], some ⟨some ⟨some "other", []⟩, []⟩, []⟩)
        = some ⟨["m2"], some ⟨some ⟨some "other", []⟩, []⟩, []⟩ :=
  ⟨bridge_injection_examples.1 ["m1"],
   bridge_injection_examples.2 "u-42" ⟨["m2"], some ⟨some ⟨some "other", []⟩, []⟩, []⟩
     "other" rfl (by decide)⟩

/-! ### Claim C5 -/

/-- Claim C5 counterexample: from a controller state whose loading flag
is set by a prior in-flight transition, invoking the Step1→Step2 handler
is not a no-op: it issues a Persistence Gateway call and changes the
controller state. -/
theorem loading_gate_counterexample :
    (handlePersonalInfoNext okEnv (some "u-1") 1
        ⟨1, ⟨none, none⟩, true, ""⟩ ⟨"Ann", "+1 555", ""⟩
        ⟨[⟨"u-1", "a@b.c", none, none, none, false, 0⟩], [], []⟩).gatewayCalls ≠ 0
      ∧ (handlePersonalInfoNext okEnv (some "u-1") 1
          ⟨1, ⟨none, none⟩, true, ""⟩ ⟨"Ann", "+1 555", ""⟩
          ⟨[⟨"u-1", "a@b.c", none, none, none, false, 0⟩], [], []⟩).flow
        ≠ ⟨1, ⟨none, none⟩, true, ""⟩ := by
  constructor <;> decide

/-- Claim C5 (amended): the controller handlers never consult the loading
flag: from every state, including one whose loading flag is set, an
invocation of the Step1→Step2 or Step3→Step4 handler issues exactly one
Persistence Gateway call, and the Step2→Step3 trigger always moves the
index.  Duplicate-trigger prevention exists only in the view layer (the
full-screen loading overlay rendered while `loading` is set). -/
theorem loading_gate_amended (env : StoreEnv) (session : Option String) (now : Nat)
    (st : FlowState) (d : PersonalInfo) (skills : List SkillSel) (store : Store) :
    (handlePersonalInfoNext env session now st d store).gatewayCalls = 1
      ∧ (handleSkillsNext env session st skills store).gatewayCalls = 1
      ∧ handleResumeUploadNext st store = ⟨{ st with currentStep := 3 }, store, 0⟩ := by
  refine ⟨?_, ?_, rfl⟩
  · cases hr : (updateProfileClient env session now (personalInfoUpdates d) store).result with
    | ok a => simp [handlePersonalInfoNext, hr]
    | error e => simp [handlePersonalInfoNext, hr]
  · cases hr : (updateUserSkillsClient env session skills store).result with
    | ok a => simp [handleSkillsNext, hr]
    | error e => simp [handleSkillsNext, hr]

/-! ### Claim C7 -/

/-- Claim C7 counterexample: on the Step 2 view in a state with no
successful upload, the Continue button's "next" signal does not advance:
the controller stays on Step 2 and the view surfaces an error, so the
transition is not unconditional and does have a precondition on a
successful upload. -/
theorem resume_next_unconditional_counterexample :
    (resumeStepNextOutcome ⟨["resume.pdf"], false, "", false⟩
        ⟨2, ⟨none, none⟩, false, ""⟩ ⟨[], [], []⟩).1.flow.currentStep = 2
      ∧ (resumeStepNextOutcome ⟨["resume.pdf"], false, "", false⟩
          ⟨2, ⟨none, none⟩, false, ""⟩ ⟨[], [], []⟩).1.flow.currentStep ≠ 3
      ∧ (resumeStepNextOutcome ⟨["resume.pdf"], false, "", false⟩
          ⟨2, ⟨none, none⟩, false, ""⟩ ⟨[], [], []⟩).2.error
        = "Please upload a resume before continuing." := by
  refine ⟨rfl, by decide, rfl⟩

/-- Claim C7 (amended): the Step 2 view always offers an unconditional
advance: the Skip action invokes `onNext` from every view state and the
controller moves to Step 3 with no Persistence Gateway call and the store
untouched; the Continue action (`handleNext`) advances exactly when a
successful upload has been recorded, otherwise it stays with a local
error. -/
theorem resume_step_advance_amended (vs : ResumeViewState) (st : FlowState) (store : Store) :
    resumeStepSkipOutcome vs st store = (⟨{ st with currentStep := 3 }, store, 0⟩, vs)
      ∧ (resumeHandleNext vs = .advance ↔ vs.uploadSuccess = true) := by
  constructor
  · rfl
  · obtain ⟨fs, ld, er, us⟩ := vs
    cases us <;> simp [resumeHandleNext]

/-! ### Claim C10 -/

/-- Claim C10: a Step 1 form whose full name is blank after trimming, or
whose phone number fails the permissive phone pattern, is rejected
locally: `handleSubmit` never invokes the upward `onNext`, and the
end-to-end submission makes zero Persistence Gateway calls and leaves
the controller state and the store unchanged. -/
theorem step1_validation_rejects (env : StoreEnv) (session : Option String) (now : Nat)
    (st : FlowState) (f : PersonalInfo) (store : Store)
    (h : jsTrimEmpty f.full_name = true ∨ phonePatternTest f.phone_number = false) :
    handleSubmitPersonal f = none
      ∧ step1Submit env session now st f store = ⟨st, store, 0⟩ := by
  have hne : validatePersonalForm f ≠ [] := by
    cases h with
    | inl h1 => simp [validatePersonalForm, h1]
    | inr h2 =>
      cases h3 : jsTrimEmpty f.phone_number with
      | true => simp [validatePersonalForm, h3]
      | false => simp [validatePersonalForm, h3, h2]
  have hval : personalFormValid f = false := by
    unfold personalFormValid
    cases hl : validatePersonalForm f with
    | nil => exact absurd hl hne
    | cons a t => rfl
  refine ⟨?_, ?_⟩
  · simp [handleSubmitPersonal, hval]
  · simp [step1Submit, handleSubmitPersonal, hval]

/-- Claim C10 witness at a concrete invalid form. -/
theorem step1_validation_rejects_witness :
    (jsTrimEmpty "" = true ∨ phonePatternTest "abc" = false)
      ∧ handleSubmitPersonal ⟨"", "abc", ""⟩ = none :=
  ⟨Or.inl (by decide),
   (step1_validation_rejects okEnv none 0 ⟨1, ⟨none, none⟩, false, ""⟩
      ⟨"", "abc", ""⟩ ⟨[], [], []⟩ (Or.inl (by decide))).1⟩


/-! ### Claim C4 -/

/-- Claim C4 counterexample: starting from a user with no resumes,
uploading resume A and then resume B through the Resume Upload step (two
sequential, successful `handleUpload` runs) leaves the user with two
resumes marked `is_master = true`, not exactly one. -/
theorem master_invariant_counterexample :
    masterCount "u-1"
        (handleUpload okEnv (some "u-1") "r-B" ⟨["b.pdf"], false, "", false⟩
          (handleUpload okEnv (some "u-1") "r-A" ⟨["a.pdf"], false, "", false⟩
            ⟨[], [], []⟩).2).2 = 2
      ∧ masterCount "u-1"
          (handleUpload okEnv (some "u-1") "r-B" ⟨["b.pdf"], false, "", false⟩
            (handleUpload okEnv (some "u-1") "r-A" ⟨["a.pdf"], false, "", false⟩
              ⟨[], [], []⟩).2).2 ≠ 1 := by
  constructor <;> decide

/-- Claim C4 (amended): sequential resume uploads do not preserve the
at-most-one-master invariant: every successful upload appends a resume
row with `is_master = true` without unsetting existing masters, so after
uploading A then B both new rows are masters and the user's master count
grows by two; the invariant is restored only by a later explicit
`setMasterResumeClient` call. -/
theorem master_invariant_amended (st : Store) (uid fA fB idA idB : String)
    (restA restB : List String) (eA eB : String) (ldA ldB usA usB : Bool) :
    (handleUpload okEnv (some uid) idB ⟨fB :: restB, ldB, eB, usB⟩
        (handleUpload okEnv (some uid) idA ⟨fA :: restA, ldA, eA, usA⟩ st).2).2.resumes
      = st.resumes ++ [⟨idA, uid, publicResumeUrl uid fA, fA, true⟩]
          ++ [⟨idB, uid, publicResumeUrl uid fB, fB, true⟩]
    ∧ masterCount uid
        (handleUpload okEnv (some uid) idB ⟨fB :: restB, ldB, eB, usB⟩
          (handleUpload okEnv (some uid) idA ⟨fA :: restA, ldA, eA, usA⟩ st).2).2
      = masterCount uid st + 2 := by
  constructor
  · rfl
  · simp [masterCount, handleUpload, okEnv, createResumeClient, List.filter_append]

/-! ### Claim C6 -/

/-- Claim C6 counterexample: on Step 3 with no previously submitted
skills, select skill `"X"` (it is then selected), press Back and then
return to Step 3 via the Step 2 skip: the remounted Skills view has an
empty selection, so `"X"` is no longer selected. -/
theorem back_preserves_selection_counterexample :
    selectedOf (uiToggleSkill ⟨⟨3, ⟨none, none⟩, false, ""⟩, some (.skillsV [])⟩ "X")
        = some [("X", "intermediate")]
      ∧ selectedOf
          (uiResumeSkip
            (uiBack (uiToggleSkill ⟨⟨3, ⟨none, none⟩, false, ""⟩, some (.skillsV [])⟩ "X")
              ⟨[], [], []⟩).1 ⟨[], [], []⟩).1
        = some []
      ∧ recordHas [] "X" = false := by
  refine ⟨by decide, by decide, rfl⟩

/-- Claim C6 (amended): a back transition performs no persistence and
leaves the controller's accumulated `onboardingData` unchanged; but
Step 3 selections live in the Skills view's local state, which is
destroyed when the view unmounts, and the Step3→Step2→Step3 round trip
remounts the view from `onboardingData.skills` alone: a previously
submitted skill is selected again, while a selection made but not yet
submitted is lost. -/
theorem back_navigation_amended (data : OnboardingData) (sel : List (String × String))
    (ld : Bool) (er : String) (store : Store) :
    (uiBack ⟨⟨3, data, ld, er⟩, some (.skillsV sel)⟩ store).2.2 = 0
      ∧ (uiBack ⟨⟨3, data, ld, er⟩, some (.skillsV sel)⟩ store).2.1 = store
      ∧ (uiBack ⟨⟨3, data, ld, er⟩, some (.skillsV sel)⟩ store).1.flow.data = data
      ∧ (uiResumeSkip (uiBack ⟨⟨3, data, ld, er⟩, some (.skillsV sel)⟩ store).1 store).2.2 = 0
      ∧ (uiResumeSkip (uiBack ⟨⟨3, data, ld, er⟩, some (.skillsV sel)⟩ store).1 store).2.1
        = store
      ∧ (uiResumeSkip (uiBack ⟨⟨3, data, ld, er⟩, some (.skillsV sel)⟩ store).1 store).1.flow
        = ⟨3, data, ld, er⟩
      ∧ (uiResumeSkip (uiBack ⟨⟨3, data, ld, er⟩, some (.skillsV sel)⟩ store).1 store).1.view
        = some (.skillsV (initSelectedSkills data.skills)) := by
  exact ⟨rfl, rfl, rfl, rfl, rfl, rfl, rfl⟩


/-! ### Skills replacement lemmas -/

/-- Tagged rows all carry the user's id, so the per-user filter keeps
them all. -/
lemma filter_keep_tagged (uid : String) (S : List SkillSel) :
    (S.map (tagSkill uid)).filter (fun r => decide (r.user_id = uid)) = S.map (tagSkill uid) := by
  induction S with
  | nil => rfl
  | cons a t ih => simp [tagSkill, ih]

/-- Tagged rows all carry the user's id, so the other-users filter drops
them all. -/
lemma filter_drop_tagged (uid : String) (S : List SkillSel) :
    (S.map (tagSkill uid)).filter (fun r => !decide (r.user_id = uid)) = [] := by
  induction S with
  | nil => rfl
  | cons a t ih => simp [tagSkill, ih]

/-- After deleting the user's rows, nothing of the user's remains. -/
lemma filter_keep_after_delete (uid : String) (l : List UserSkillRow) :
    (l.filter (fun r => !decide (r.user_id = uid))).filter (fun r => decide (r.user_id = uid))
      = [] := by
  induction l with
  | nil => rfl
  | cons a t ih =>
    by_cases h : a.user_id = uid <;> simp [h, ih]

/-- Deleting the user's rows is idempotent. -/
lemma filter_delete_idem (uid : String) (l : List UserSkillRow) :
    (l.filter (fun r => !decide (r.user_id = uid))).filter (fun r => !decide (r.user_id = uid))
      = l.filter (fun r => !decide (r.user_id = uid)) := by
  induction l with
  | nil => rfl
  | cons a t ih =>
    by_cases h : a.user_id = uid <;> simp [h, ih]

/-- With an authenticated session and every store statement succeeding,
`updateUserSkillsClient` returns the tagged rows and replaces the user's
`user_skills` rows by them, leaving every other table and every other
user's rows untouched. -/
lemma updateUserSkillsClient_ok (uid : String) (S : List SkillSel) (st : Store) :
    updateUserSkillsClient okEnv (some uid) S st
      = ⟨.ok (S.map (tagSkill uid)),
         ⟨st.profiles,
          st.user_skills.filter (fun r => !decide (r.user_id = uid)) ++ S.map (tagSkill uid),
          st.resumes⟩,
         if S.isEmpty then [.deleteOp] else [.deleteOp, .insertOp]⟩ := by
  cases S with
  | nil => simp [updateUserSkillsClient, okEnv]
  | cons a t => simp [updateUserSkillsClient, okEnv]

/-! ### Claim C8 -/

/-- Claim C8: a successful `updateUserSkillsClient` call with a selection
list `S` keyed by distinct skill ids leaves exactly `S` (tagged with the
user's id) as the user's persisted skill set — a full
delete-all-then-insert replacement, with no duplicates, no leftovers from
any prior set, and other users' rows untouched — and submitting the same
`S` again changes nothing (idempotence). -/
theorem skills_replace_exact (uid : String) (S : List SkillSel) (st : Store)
    (h : (S.map SkillSel.skill_id).Nodup) :
    (updateUserSkillsClient okEnv (some uid) S st).result = .ok (S.map (tagSkill uid))
      ∧ skillsFor uid (updateUserSkillsClient okEnv (some uid) S st).store
        = S.map (tagSkill uid)
      ∧ skillsForOthers uid (updateUserSkillsClient okEnv (some uid) S st).store
        = skillsForOthers uid st
      ∧ ((skillsFor uid (updateUserSkillsClient okEnv (some uid) S st).store).map
          UserSkillRow.skill_id).Nodup
      ∧ (updateUserSkillsClient okEnv (some uid) S
          (updateUserSkillsClient okEnv (some uid) S st).store).store
        = (updateUserSkillsClient okEnv (some uid) S st).store := by
  have h2 : skillsFor uid (updateUserSkillsClient okEnv (some uid) S st).store
      = S.map (tagSkill uid) := by
    rw [updateUserSkillsClient_ok]
    simp [skillsFor, List.filter_append, filter_keep_after_delete, filter_keep_tagged]
  refine ⟨?_, h2, ?_, ?_, ?_⟩
  · rw [updateUserSkillsClient_ok]
  · rw [updateUserSkillsClient_ok]
    simp [skillsForOthers, List.filter_append, filter_delete_idem, filter_drop_tagged]
  · rw [h2]
    have hmap : (S.map (tagSkill uid)).map UserSkillRow.skill_id = S.map SkillSel.skill_id := by
      simp [List.map_map]
      intro a _
      rfl
    rw [hmap]
    exact h
  · rw [updateUserSkillsClient_ok, updateUserSkillsClient_ok]
    simp [List.filter_append, filter_delete_idem, filter_drop_tagged]

/-- Claim C8 witness at a concrete user, prior set and selection. -/
theorem skills_replace_exact_witness :
    (([⟨"s1", "advanced"⟩, ⟨"s2", "beginner"⟩] : List SkillSel).map SkillSel.skill_id).Nodup
      ∧ skillsFor "u-1"
          (updateUserSkillsClient okEnv (some "u-1") [⟨"s1", "advanced"⟩, ⟨"s2", "beginner"⟩]
            ⟨[], [⟨"u-1", "old", "expert"⟩, ⟨"u-2", "keep", "expert"⟩], []⟩).store
        = [⟨"u-1", "s1", "advanced"⟩, ⟨"u-1", "s2", "beginner"⟩] :=
  ⟨by decide,
   (skills_replace_exact "u-1" [⟨"s1", "advanced"⟩, ⟨"s2", "beginner"⟩]
      ⟨[], [⟨"u-1", "old", "expert"⟩, ⟨"u-2", "keep", "expert"⟩], []⟩ (by decide)).2.1⟩

/-! ### Claim C9 -/

/-- Claim C9: when the delete of the skills replace sequence succeeds and
the subsequent insert fails, `updateUserSkillsClient` throws the
store-error message and the user's persisted skill set is left empty: the
partial write is neither rolled back nor retried. -/
theorem skills_partial_failure (uid : String) (S : List SkillSel) (st : Store) (m : String)
    (_hPrior : skillsFor uid st ≠ []) (hS : S ≠ []) :
    (updateUserSkillsClient { okEnv with skillsInsertError := some m } (some uid) S st).result
        = .error ("Failed to update user skills: " ++ m)
      ∧ skillsFor uid
          (updateUserSkillsClient { okEnv with skillsInsertError := some m }
            (some uid) S st).store
        = [] := by
  cases S with
  | nil => exact absurd rfl hS
  | cons a t =>
    refine ⟨rfl, ?_⟩
    simp [updateUserSkillsClient, okEnv, skillsFor, filter_keep_after_delete]

/-- Claim C9 witness at a concrete user with one prior skill. -/
theorem skills_partial_failure_witness :
    skillsFor "u-1" ⟨[], [⟨"u-1", "s1", "expert"⟩], []⟩ ≠ []
      ∧ ([⟨"s2", "beginner"⟩] : List SkillSel) ≠ []
      ∧ skillsFor "u-1"
          (updateUserSkillsClient { okEnv with skillsInsertError := some "boom" }
            (some "u-1") [⟨"s2", "beginner"⟩] ⟨[], [⟨"u-1", "s1", "expert"⟩], []⟩).store
        = [] :=
  ⟨by decide, by decide,
   (skills_partial_failure "u-1" [⟨"s2", "beginner"⟩] ⟨[], [⟨"u-1", "s1", "expert"⟩], []⟩
      "boom" (by decide) (by decide)).2⟩


end JobSearch
